import Mathlib

/-!
Verification of `uv init` (crates/uv/src/commands/project/init.rs).

The orchestrator is embedded as a pure state-passing function over an
explicit filesystem.  External collaborators (workspace discovery,
interpreter resolution, the workspace-manifest editor) are parameters of
the model: their outcomes are inputs, and the editor's behaviour — whose
code is not part of this slice — is modelled from the spec.
-/

namespace UvInit

/-- A filesystem path: an absoluteness flag plus raw components, mirroring
`std::path::PathBuf`. Components may contain `"."` and `".."`. -/
structure Path where
  absolute : Bool
  components : List String
deriving DecidableEq, Repr

/-- `PathBuf::join` with a single component. -/
def Path.join (p : Path) (s : String) : Path :=
  { p with components := p.components ++ [s] }

/-- `Path::file_name`: the last normal component; `none` when the path has no
components, or ends in `..`.  (`components()` drops `"."` entries.) -/
def Path.fileName (p : Path) : Option String :=
  match (p.components.filter (fun c => c ≠ ".")).getLast? with
  | none => none
  | some c => if c = ".." then none else some c

/-- `Path::to_string_lossy` on our (always valid UTF-8) paths. -/
def Path.render (p : Path) : String :=
  (if p.absolute then "/" else "") ++ String.intercalate "/" p.components

/-- A canonicalised path is absolute and free of `.` / `..` components
(the aspects of `canonicalize()` a pure model can state). -/
def Path.isCanonical (p : Path) : Bool :=
  p.absolute && p.components.all (fun c => c ≠ "." && c ≠ "..")

/-- Modelled from the spec: the mutable view of a workspace `pyproject.toml`
produced by the manifest editor (`PyProjectTomlMut`, code not in this slice).
`members` is the workspace member list; `rest` stands for every other part of
the document, which the editor leaves untouched. -/
structure TomlDoc where
  members : List String
  rest : String
deriving DecidableEq, Repr

/-- Modelled from the spec: `PyProjectTomlMut::add_workspace` registers the
new project's path as a workspace member, so that afterwards the member list
contains it (exactly once when the incoming document listed it at most once). -/
def TomlDoc.addWorkspace (d : TomlDoc) (p : String) : TomlDoc :=
  if p ∈ d.members then d else { d with members := d.members ++ [p] }

/-- File contents: plain text, or a workspace manifest document written back
through the editor's (abstract, injective) serialisation. -/
inductive FileContent where
  | text (s : String)
  | toml (d : TomlDoc)
deriving DecidableEq, Repr

/-- The filesystem: an association list from paths to file contents. -/
structure FS where
  entries : List (Path × FileContent)
deriving DecidableEq, Repr

/-- Look up a file's content. -/
def FS.read (fs : FS) (p : Path) : Option FileContent :=
  (fs.entries.find? (fun e => e.1 = p)).map (fun e => e.2)

/-- `Path::exists` / `try_exists` for files in the model. -/
def FS.fileExists (fs : FS) (p : Path) : Bool :=
  (fs.read p).isSome

/-- `fs_err::write`: create or overwrite a file. -/
def FS.write (fs : FS) (p : Path) (c : FileContent) : FS :=
  ⟨(p, c) :: fs.entries.filter (fun e => e.1 ≠ p)⟩

/-- One filesystem side effect, in syscall order. -/
inductive Effect where
  | createDirAll (p : Path)
  | write (p : Path) (c : FileContent)
deriving DecidableEq, Repr

/-- Mutable state threaded through the call: the filesystem plus the trace of
side effects performed so far. -/
structure St where
  fs : FS
  trace : List Effect
deriving DecidableEq, Repr

/-- Record a `create_dir_all` (directories carry no content in the model). -/
def St.createDirAll (st : St) (p : Path) : St :=
  { st with trace := st.trace ++ [Effect.createDirAll p] }

/-- Perform and record a file write. -/
def St.write (st : St) (p : Path) (c : FileContent) : St :=
  { fs := st.fs.write p c, trace := st.trace ++ [Effect.write p c] }

deriving instance DecidableEq for Except

/-- An enclosing workspace as discovered by `ProjectWorkspace::discover`:
the root of its current project and the editor's parse of that project's
`pyproject.toml` (`Except` because `PyProjectTomlMut::from_toml` can fail). -/
structure Workspace where
  root : Path
  pyproject : Except String TomlDoc
deriving DecidableEq, Repr

/-- `WorkspaceError`: `MissingPyprojectToml` means "not in a workspace";
anything else is fatal. -/
inductive WorkspaceError where
  | missingPyprojectToml
  | other (msg : String)
deriving DecidableEq, Repr

/-- Collaborator outcomes for one invocation: the canonicalised current
directory, the workspace-discovery result, and the interpreter resolver's
result (`PythonInstallation::find_or_fetch`, returning a version string). -/
structure Env where
  currentDir : Path
  discover : Except WorkspaceError Workspace
  findOrFetch : Except String String
deriving DecidableEq, Repr

/-- The request: `init`'s caller-supplied arguments.  `name`, when present,
is an already-validated `PackageName`.  The interpreter/network settings are
consumed only by the collaborators, never by the template logic. -/
structure InitRequest where
  path : Option Path
  name : Option String
  noReadme : Bool
  noPin : Bool
  python : Option String
  nativeTls : Bool
deriving DecidableEq, Repr

/-- `char` is alphanumeric (ASCII letter or digit), as in package names. -/
def isAlnum (c : Char) : Bool := c.isAlpha || c.isDigit

/-- Modelled from the spec: `pep508_rs::PackageName::new` validation (code
not in this slice) — a valid package identifier starts and ends with an
alphanumeric character, with `-`, `_`, `.` allowed in between. -/
def isValidPackageName (s : String) : Bool :=
  match s.toList with
  | [] => false
  | c :: cs =>
    isAlnum c &&
      (match cs.getLast? with
       | none => true
       | some d =>
         isAlnum d && (cs.dropLast.all (fun x => isAlnum x || x = '-' || x = '_' || x = '.')))

/-- Possible results of the whole call: success, a returned error, or a
process abort (`expect` panic). -/
inductive InitError where
  | workspaceDiscovery (msg : String)
  | invalidName (name : String)
  | alreadyInitialized
  | interpreter (msg : String)
  | manifestEdit (msg : String)
deriving DecidableEq, Repr

/-- The call's outcome. `panic` models `.expect(...)` aborting the process. -/
inductive InitResult where
  | success
  | error (e : InitError)
  | panic (msg : String)
deriving DecidableEq, Repr

/-- Lines 50–53: the project directory is the given path verbatim, or the
canonicalised current directory. -/
def resolvedProjectDir (env : Env) (req : InitRequest) : Path :=
  match req.path with
  | none => env.currentDir
  | some p => p

/-- Outcome of name resolution (lines 55–65). -/
inductive NameOutcome where
  | panicMissing
  | invalid (s : String)
  | ok (s : String)
deriving DecidableEq, Repr

/-- Lines 55–65: a supplied name is used as-is; otherwise the name is the
directory's `file_name` (a missing one panics via `expect`), validated as a
package name. -/
def resolveName (req : InitRequest) (projectDir : Path) : NameOutcome :=
  match req.name with
  | some n => NameOutcome.ok n
  | none =>
    match projectDir.fileName with
    | none => NameOutcome.panicMissing
    | some s =>
      if isValidPackageName s then NameOutcome.ok s else NameOutcome.invalid s

/-- Lines 78–90: the `pyproject.toml` template, a fixed document interpolated
from the package name only. -/
def pyprojectTemplate (name : String) : String :=
  "[project]\n" ++
  "name = \"" ++ name ++ "\"\n" ++
  "version = \"0.1.0\"\n" ++
  "description = \"Add your description here\"\n" ++
  "dependencies = []\n" ++
  "readme = \"README.md\"\n" ++
  "\n" ++
  "[tool.uv]\n" ++
  "dev-dependencies = []\n"

/-- Lines 96–101: the `__init__.py` template. -/
def initPyTemplate (name : String) : String :=
  "def hello() -> str:\n" ++
  "    return \"Hello from " ++ name ++ "!\"\n"

/-- Lines 92–103: create `src/<name>/__init__.py` only if absent. -/
def createInitPy (name : String) (srcDir : Path) (st : St) : St :=
  let initPy := srcDir.join "__init__.py"
  if st.fs.fileExists initPy then st
  else st.write initPy (FileContent.text (initPyTemplate name))

/-- Lines 105–112: create an empty `README.md` only if absent and not
suppressed; with `no_readme` set, nothing is touched or checked. -/
def createReadme (noReadme : Bool) (projectDir : Path) (st : St) : St :=
  if noReadme then st
  else
    let readme := projectDir.join "README.md"
    if st.fs.fileExists readme then st
    else st.write readme (FileContent.text "")

/-- Lines 139–149: workspace registration — parse the enclosing project's
manifest, add the new project's path as a member, write the document back to
the workspace root's `pyproject.toml`. -/
def registerWorkspace (ws? : Option Workspace) (projectDir : Path) (st : St) :
    InitResult × St :=
  match ws? with
  | none => (InitResult.success, st)
  | some ws =>
    match ws.pyproject with
    | Except.error msg => (InitResult.error (InitError.manifestEdit msg), st)
    | Except.ok doc =>
      let doc := doc.addWorkspace projectDir.render
      (InitResult.success, st.write (ws.root.join "pyproject.toml") (FileContent.toml doc))

/-- Lines 114–137 then 139–149: the interpreter pin (only without a workspace
and without `no_pin`, resolver failure fatal), followed by registration. -/
def pinAndRegister (env : Env) (req : InitRequest) (ws? : Option Workspace)
    (projectDir : Path) (st : St) : InitResult × St :=
  if req.noPin = false ∧ ws? = none then
    match env.findOrFetch with
    | Except.error msg => (InitResult.error (InitError.interpreter msg), st)
    | Except.ok version =>
      let st := st.write (projectDir.join ".python-version") (FileContent.text version)
      registerWorkspace ws? projectDir st
  else
    registerWorkspace ws? projectDir st

/-- Lines 72–112 then the rest: create the skeleton (source directory,
manifest from the template, module file, README), then pin and register. -/
def initBody (env : Env) (req : InitRequest) (ws? : Option Workspace)
    (projectDir : Path) (name : String) (st : St) : InitResult × St :=
  let srcDir := (projectDir.join "src").join name
  let st := st.createDirAll srcDir
  let st := st.write (projectDir.join "pyproject.toml")
    (FileContent.text (pyprojectTemplate name))
  let st := createInitPy name srcDir st
  let st := createReadme req.noReadme projectDir st
  pinAndRegister env req ws? projectDir st

/-- The whole of `init` (lines 24–172): discover the workspace, resolve the
project directory and name, bail if a manifest already exists, then run the
mutating body.  Printing is reporting only and is not modelled. -/
def init (env : Env) (req : InitRequest) (fs : FS) : InitResult × St :=
  let st0 : St := ⟨fs, []⟩
  match env.discover with
  | Except.error (WorkspaceError.other msg) =>
    (InitResult.error (InitError.workspaceDiscovery msg), st0)
  | Except.error WorkspaceError.missingPyprojectToml =>
    initAfterDiscover env req none st0
  | Except.ok ws =>
    initAfterDiscover env req (some ws) st0
where
  initAfterDiscover (env : Env) (req : InitRequest) (ws? : Option Workspace)
      (st0 : St) : InitResult × St :=
    let projectDir := resolvedProjectDir env req
    match resolveName req projectDir with
    | NameOutcome.panicMissing => (InitResult.panic "Invalid package name", st0)
    | NameOutcome.invalid s => (InitResult.error (InitError.invalidName s), st0)
    | NameOutcome.ok name =>
      if st0.fs.fileExists (projectDir.join "pyproject.toml") then
        (InitResult.error InitError.alreadyInitialized, st0)
      else
        initBody env req ws? projectDir name st0

/-- A trace effect writes the interpreter-pin file (path ends in
`.python-version`). -/
def Effect.isPinWrite : Effect → Bool
  | Effect.write p _ => p.components.getLast? = some ".python-version"
  | _ => false

/-- A trace effect writes a workspace-manifest document (the only producer of
`toml` content is the manifest editor in the registration step). -/
def Effect.isRegistrationWrite : Effect → Bool
  | Effect.write _ (FileContent.toml _) => true
  | _ => false

/-- The invocation wrote the interpreter-pin file. -/
def pinWritten (tr : List Effect) : Bool := tr.any Effect.isPinWrite

/-- The invocation rewrote an enclosing workspace manifest. -/
def registrationWritten (tr : List Effect) : Bool := tr.any Effect.isRegistrationWrite

/-- The failure modes that can occur at or before the step-4 precondition
check, i.e. before any mutation. -/
def isPreMutationFailure : InitResult → Bool
  | InitResult.panic _ => true
  | InitResult.error (InitError.workspaceDiscovery _) => true
  | InitResult.error (InitError.invalidName _) => true
  | InitResult.error InitError.alreadyInitialized => true
  | _ => false

/-- Environment/filesystem consistency: a discovered workspace's own manifest
exists on disk (discovery found it there). -/
def Env.consistentWith (env : Env) (fs : FS) : Prop :=
  ∀ ws, env.discover = Except.ok ws → fs.fileExists (ws.root.join "pyproject.toml") = true

/- ### Path and state helper lemmas -/

@[simp] theorem Path.join_eq_join_iff (p q : Path) (a b : String) :
    (p.join a = q.join b) ↔ (p = q ∧ a = b) := by
  cases p with
  | mk pa pc =>
    cases q with
    | mk qa qc =>
      simp only [Path.join, Path.mk.injEq]
      constructor
      · rintro ⟨h1, h2⟩
        have := List.append_inj' h2 rfl
        simp only [List.cons.injEq, and_true] at this
        exact ⟨⟨h1, this.1⟩, this.2⟩
      · rintro ⟨⟨h1, h2⟩, h3⟩
        exact ⟨h1, by rw [h2, h3]⟩

@[simp] theorem Path.fileName_join (p : Path) (s : String) :
    (p.join s).components.getLast? = some s := by
  simp [Path.join]

@[simp] theorem St.trace_write (st : St) (p : Path) (c : FileContent) :
    (st.write p c).trace = st.trace ++ [Effect.write p c] := rfl

@[simp] theorem St.fs_write (st : St) (p : Path) (c : FileContent) :
    (st.write p c).fs = st.fs.write p c := rfl

@[simp] theorem St.trace_createDirAll (st : St) (p : Path) :
    (st.createDirAll p).trace = st.trace ++ [Effect.createDirAll p] := rfl

@[simp] theorem St.fs_createDirAll (st : St) (p : Path) :
    (st.createDirAll p).fs = st.fs := rfl

@[simp] theorem FS.read_write_self (fs : FS) (p : Path) (c : FileContent) :
    (fs.write p c).read p = some c := by
  simp [FS.read, FS.write]

theorem find?_filter_ne {α β : Type} [DecidableEq α] (l : List (α × β)) (p q : α)
    (h : q ≠ p) :
    List.find? (fun e => decide (e.1 = q)) (List.filter (fun e => decide (e.1 ≠ p)) l) =
    List.find? (fun e => decide (e.1 = q)) l := by
  induction l with
  | nil => rfl
  | cons e es ih =>
    rw [List.filter_cons]
    by_cases he : e.1 = p
    · have h1 : (decide (e.1 ≠ p)) = false := by simpa using he
      rw [h1]
      simp only [Bool.false_eq_true, if_false]
      rw [ih, List.find?_cons]
      have h2 : (decide (e.1 = q)) = false := by
        simp only [decide_eq_false_iff_not]
        rw [he]
        exact fun x => h x.symm
      rw [h2]
    · have h1 : (decide (e.1 ≠ p)) = true := by simpa using he
      rw [h1]
      simp only [if_true]
      rw [List.find?_cons, List.find?_cons]
      cases hq : decide (e.1 = q) with
      | true => rfl
      | false => exact ih

@[simp] theorem FS.read_write_other (fs : FS) (p q : Path) (c : FileContent)
    (h : q ≠ p) : (fs.write p c).read q = fs.read q := by
  simp only [FS.read, FS.write, List.find?_cons]
  have hpq : (decide ((p, c).1 = q)) = false := by simpa using Ne.symm h
  simp only [hpq]
  rw [find?_filter_ne fs.entries p q h]

@[simp] theorem FS.fileExists_write_self (fs : FS) (p : Path) (c : FileContent) :
    (fs.write p c).fileExists p = true := by
  simp [FS.fileExists]

theorem FS.fileExists_write_other (fs : FS) (p q : Path) (c : FileContent)
    (h : q ≠ p) : (fs.write p c).fileExists q = fs.fileExists q := by
  simp [FS.fileExists, FS.read_write_other fs p q c h]

@[simp] theorem Effect.isPinWrite_write_join (p : Path) (s : String) (c : FileContent) :
    Effect.isPinWrite (Effect.write (p.join s) c) = decide (s = ".python-version") := by
  simp [Effect.isPinWrite, Path.fileName_join]

@[simp] theorem Effect.isPinWrite_createDirAll (p : Path) :
    Effect.isPinWrite (Effect.createDirAll p) = false := rfl

@[simp] theorem Effect.isRegistrationWrite_write_text (p : Path) (s : String) :
    Effect.isRegistrationWrite (Effect.write p (FileContent.text s)) = false := rfl

@[simp] theorem Effect.isRegistrationWrite_createDirAll (p : Path) :
    Effect.isRegistrationWrite (Effect.createDirAll p) = false := rfl

@[simp] theorem pinWritten_nil : pinWritten [] = false := rfl

@[simp] theorem registrationWritten_nil : registrationWritten [] = false := rfl

@[simp] theorem pinWritten_cons (e : Effect) (l : List Effect) :
    pinWritten (e :: l) = (e.isPinWrite || pinWritten l) := by
  simp [pinWritten]

@[simp] theorem registrationWritten_cons (e : Effect) (l : List Effect) :
    registrationWritten (e :: l) = (e.isRegistrationWrite || registrationWritten l) := by
  simp [registrationWritten]

@[simp] theorem pinWritten_append (l₁ l₂ : List Effect) :
    pinWritten (l₁ ++ l₂) = (pinWritten l₁ || pinWritten l₂) := by
  simp [pinWritten, List.any_append]

@[simp] theorem registrationWritten_append (l₁ l₂ : List Effect) :
    registrationWritten (l₁ ++ l₂) = (registrationWritten l₁ || registrationWritten l₂) := by
  simp [registrationWritten, List.any_append]

@[simp] theorem pinWritten_createInitPy (n : String) (d : Path) (st : St) :
    pinWritten (createInitPy n d st).trace = pinWritten st.trace := by
  unfold createInitPy
  dsimp only
  split
  · rfl
  · simp [pinWritten]

@[simp] theorem registrationWritten_createInitPy (n : String) (d : Path) (st : St) :
    registrationWritten (createInitPy n d st).trace = registrationWritten st.trace := by
  unfold createInitPy
  dsimp only
  split
  · rfl
  · simp [registrationWritten]

@[simp] theorem pinWritten_createReadme (b : Bool) (d : Path) (st : St) :
    pinWritten (createReadme b d st).trace = pinWritten st.trace := by
  unfold createReadme
  split
  · rfl
  · dsimp only
    split
    · rfl
    · simp [pinWritten]

@[simp] theorem registrationWritten_createReadme (b : Bool) (d : Path) (st : St) :
    registrationWritten (createReadme b d st).trace = registrationWritten st.trace := by
  unfold createReadme
  split
  · rfl
  · dsimp only
    split
    · rfl
    · simp [registrationWritten]

/-- Without a discovered workspace, `initBody` adds no registration write. -/
theorem registrationWritten_initBody_none (env : Env) (req : InitRequest) (pd : Path)
    (n : String) (st : St) (h : registrationWritten st.trace = false) :
    registrationWritten (initBody env req none pd n st).2.trace = false := by
  unfold initBody pinAndRegister registerWorkspace
  dsimp only
  split
  · cases hf : env.findOrFetch with
    | error msg => simp [h]
    | ok v => simp [h]
  · simp [h]

/-- With a discovered workspace, `initBody` adds no interpreter-pin write. -/
theorem pinWritten_initBody_some (env : Env) (req : InitRequest) (ws : Workspace)
    (pd : Path) (n : String) (st : St) (h : pinWritten st.trace = false) :
    pinWritten (initBody env req (some ws) pd n st).2.trace = false := by
  unfold initBody pinAndRegister registerWorkspace
  dsimp only
  split
  · rename_i hc
    exact absurd hc.2 (by simp)
  · cases hp : ws.pyproject with
    | error msg => simp [h]
    | ok doc => simp [h]

/-- Without a discovered workspace the run never writes a manifest document
back (registration cannot occur). -/
theorem registrationWritten_afterDiscover_none (env : Env) (req : InitRequest) (st0 : St)
    (h : registrationWritten st0.trace = false) :
    registrationWritten (init.initAfterDiscover env req none st0).2.trace = false := by
  unfold init.initAfterDiscover
  dsimp only
  split
  · exact h
  · exact h
  · split
    · exact h
    · exact registrationWritten_initBody_none env req _ _ st0 h

/-- With a discovered workspace the run never writes the interpreter-pin
file. -/
theorem pinWritten_afterDiscover_some (env : Env) (req : InitRequest) (ws : Workspace)
    (st0 : St) (h : pinWritten st0.trace = false) :
    pinWritten (init.initAfterDiscover env req (some ws) st0).2.trace = false := by
  unfold init.initAfterDiscover
  dsimp only
  split
  · exact h
  · exact h
  · split
    · exact h
    · exact pinWritten_initBody_some env req ws _ _ st0 h

/- ### Run characterisation -/

/-- The step-1 outcome as the orchestrator interprets it: `none` when
discovery failed fatally, otherwise the optional workspace. -/
def discovered : Except WorkspaceError Workspace → Option (Option Workspace)
  | Except.ok ws => some (some ws)
  | Except.error WorkspaceError.missingPyprojectToml => some none
  | Except.error (WorkspaceError.other _) => none

/-- The state after the skeleton steps 5–7, starting from `st`. -/
def skeletonSt (req : InitRequest) (pd : Path) (n : String) (st : St) : St :=
  createReadme req.noReadme pd
    (createInitPy n ((pd.join "src").join n)
      ((st.createDirAll ((pd.join "src").join n)).write (pd.join "pyproject.toml")
        (FileContent.text (pyprojectTemplate n))))

theorem initBody_eq (env : Env) (req : InitRequest) (ws? : Option Workspace)
    (pd : Path) (n : String) (st : St) :
    initBody env req ws? pd n st = pinAndRegister env req ws? pd (skeletonSt req pd n st) := rfl

theorem init_eq_of_discover_other (env : Env) (req : InitRequest) (fs : FS) (msg : String)
    (h : env.discover = Except.error (WorkspaceError.other msg)) :
    init env req fs = (InitResult.error (InitError.workspaceDiscovery msg), ⟨fs, []⟩) := by
  unfold init
  rw [h]

theorem init_eq_of_name_panic (env : Env) (req : InitRequest) (fs : FS) (ws? : Option Workspace)
    (hws : discovered env.discover = some ws?)
    (hn : resolveName req (resolvedProjectDir env req) = NameOutcome.panicMissing) :
    init env req fs = (InitResult.panic "Invalid package name", ⟨fs, []⟩) := by
  unfold init init.initAfterDiscover
  cases hd : env.discover with
  | ok ws => dsimp only; rw [hn]
  | error e =>
    cases e with
    | missingPyprojectToml => dsimp only; rw [hn]
    | other msg => rw [hd] at hws; exact absurd hws (by simp [discovered])

theorem init_eq_of_name_invalid (env : Env) (req : InitRequest) (fs : FS)
    (ws? : Option Workspace) (s : String) (hws : discovered env.discover = some ws?)
    (hn : resolveName req (resolvedProjectDir env req) = NameOutcome.invalid s) :
    init env req fs = (InitResult.error (InitError.invalidName s), ⟨fs, []⟩) := by
  unfold init init.initAfterDiscover
  cases hd : env.discover with
  | ok ws => dsimp only; rw [hn]
  | error e =>
    cases e with
    | missingPyprojectToml => dsimp only; rw [hn]
    | other msg => rw [hd] at hws; exact absurd hws (by simp [discovered])

theorem init_eq_of_manifest_exists (env : Env) (req : InitRequest) (fs : FS)
    (ws? : Option Workspace) (n : String) (hws : discovered env.discover = some ws?)
    (hn : resolveName req (resolvedProjectDir env req) = NameOutcome.ok n)
    (hex : fs.fileExists ((resolvedProjectDir env req).join "pyproject.toml") = true) :
    init env req fs = (InitResult.error InitError.alreadyInitialized, ⟨fs, []⟩) := by
  unfold init init.initAfterDiscover
  cases hd : env.discover with
  | ok ws => dsimp only; rw [hn]; simp [hex]
  | error e =>
    cases e with
    | missingPyprojectToml => dsimp only; rw [hn]; simp [hex]
    | other msg => rw [hd] at hws; exact absurd hws (by simp [discovered])

theorem init_eq_body (env : Env) (req : InitRequest) (fs : FS) (ws? : Option Workspace)
    (n : String) (hws : discovered env.discover = some ws?)
    (hn : resolveName req (resolvedProjectDir env req) = NameOutcome.ok n)
    (hex : fs.fileExists ((resolvedProjectDir env req).join "pyproject.toml") = false) :
    init env req fs = initBody env req ws? (resolvedProjectDir env req) n ⟨fs, []⟩ := by
  unfold init init.initAfterDiscover
  cases hd : env.discover with
  | ok ws =>
    rw [hd] at hws
    simp only [discovered, Option.some.injEq] at hws
    subst hws
    dsimp only
    rw [hn]
    simp [hex]
  | error e =>
    cases e with
    | missingPyprojectToml =>
      rw [hd] at hws
      simp only [discovered, Option.some.injEq] at hws
      subst hws
      dsimp only
      rw [hn]
      simp [hex]
    | other msg => rw [hd] at hws; exact absurd hws (by simp [discovered])

theorem pinAndRegister_none_pin_err (env : Env) (req : InitRequest) (pd : Path) (st : St)
    (h1 : req.noPin = false) (msg : String) (h2 : env.findOrFetch = Except.error msg) :
    pinAndRegister env req none pd st = (InitResult.error (InitError.interpreter msg), st) := by
  unfold pinAndRegister
  rw [h2]
  simp [h1]

theorem pinAndRegister_none_pin_ok (env : Env) (req : InitRequest) (pd : Path) (st : St)
    (h1 : req.noPin = false) (v : String) (h2 : env.findOrFetch = Except.ok v) :
    pinAndRegister env req none pd st =
      (InitResult.success, st.write (pd.join ".python-version") (FileContent.text v)) := by
  unfold pinAndRegister registerWorkspace
  rw [h2]
  simp [h1]

theorem pinAndRegister_none_noPin (env : Env) (req : InitRequest) (pd : Path) (st : St)
    (h1 : req.noPin = true) :
    pinAndRegister env req none pd st = (InitResult.success, st) := by
  unfold pinAndRegister registerWorkspace
  simp [h1]

theorem pinAndRegister_some_err (env : Env) (req : InitRequest) (ws : Workspace) (pd : Path)
    (st : St) (msg : String) (h : ws.pyproject = Except.error msg) :
    pinAndRegister env req (some ws) pd st =
      (InitResult.error (InitError.manifestEdit msg), st) := by
  unfold pinAndRegister registerWorkspace
  rw [if_neg (by simp : ¬(req.noPin = false ∧ (some ws : Option Workspace) = none))]
  dsimp only
  rw [h]

theorem pinAndRegister_some_ok (env : Env) (req : InitRequest) (ws : Workspace) (pd : Path)
    (st : St) (doc : TomlDoc) (h : ws.pyproject = Except.ok doc) :
    pinAndRegister env req (some ws) pd st =
      (InitResult.success,
        st.write (ws.root.join "pyproject.toml")
          (FileContent.toml (doc.addWorkspace pd.render))) := by
  unfold pinAndRegister registerWorkspace
  rw [if_neg (by simp : ¬(req.noPin = false ∧ (some ws : Option Workspace) = none))]
  dsimp only
  rw [h]

/- ### Reading through the skeleton steps -/

theorem Path.join_ne_of_comp_ne (p q : Path) (a b : String) (h : a ≠ b) :
    p.join a ≠ q.join b := by
  intro hEq
  rw [Path.join_eq_join_iff] at hEq
  exact h hEq.2

theorem createInitPy_fs_read_other (n : String) (d : Path) (st : St) (q : Path)
    (h : q ≠ d.join "__init__.py") :
    (createInitPy n d st).fs.read q = st.fs.read q := by
  unfold createInitPy
  dsimp only
  split
  · rfl
  · exact FS.read_write_other _ _ _ _ h

theorem createReadme_fs_read_other (b : Bool) (d : Path) (st : St) (q : Path)
    (h : q ≠ d.join "README.md") :
    (createReadme b d st).fs.read q = st.fs.read q := by
  unfold createReadme
  split
  · rfl
  · dsimp only
    split
    · rfl
    · exact FS.read_write_other _ _ _ _ h

/-- After the skeleton steps, the project manifest holds the template. -/
theorem skeletonSt_read_manifest (req : InitRequest) (pd : Path) (n : String) (st : St) :
    (skeletonSt req pd n st).fs.read (pd.join "pyproject.toml") =
      some (FileContent.text (pyprojectTemplate n)) := by
  unfold skeletonSt
  rw [createReadme_fs_read_other, createInitPy_fs_read_other]
  · simp
  · exact Path.join_ne_of_comp_ne _ _ _ _ (by decide)
  · exact Path.join_ne_of_comp_ne _ _ _ _ (by decide)

theorem init_dispatch_ok (env : Env) (req : InitRequest) (fs : FS) (ws : Workspace)
    (hd : env.discover = Except.ok ws) :
    init env req fs = init.initAfterDiscover env req (some ws) ⟨fs, []⟩ := by
  unfold init
  rw [hd]

theorem init_dispatch_missing (env : Env) (req : InitRequest) (fs : FS)
    (hd : env.discover = Except.error WorkspaceError.missingPyprojectToml) :
    init env req fs = init.initAfterDiscover env req none ⟨fs, []⟩ := by
  unfold init
  rw [hd]

@[simp] theorem pinWritten_skeletonSt (req : InitRequest) (pd : Path) (n : String) (st : St) :
    pinWritten (skeletonSt req pd n st).trace = pinWritten st.trace := by
  unfold skeletonSt
  simp

@[simp] theorem registrationWritten_skeletonSt (req : InitRequest) (pd : Path) (n : String)
    (st : St) :
    registrationWritten (skeletonSt req pd n st).trace = registrationWritten st.trace := by
  unfold skeletonSt
  simp

/- ### Example inputs for witnesses -/

/-- A canonical current directory. -/
def exCwd : Path := ⟨true, ["home", "user"]⟩

/-- An explicit project directory `/home/user/foo`. -/
def exDir : Path := ⟨true, ["home", "user", "foo"]⟩

/-- No enclosing workspace; the resolver finds Python 3.12.3. -/
def exEnvNoWs : Env := ⟨exCwd, Except.error WorkspaceError.missingPyprojectToml, Except.ok "3.12.3"⟩

/-- An enclosing workspace at `/ws` whose manifest parses to one member. -/
def exWs : Workspace := ⟨⟨true, ["ws"]⟩, Except.ok ⟨["old"], "doc"⟩⟩

/-- Discovery finds `exWs`. -/
def exEnvWs : Env := ⟨exCwd, Except.ok exWs, Except.ok "3.12.3"⟩

/-- Default-flag request targeting `/home/user/foo`, no explicit name. -/
def exReq : InitRequest := ⟨some exDir, none, false, false, none, false⟩

/-- **C10.** In every single invocation, the interpreter-pin write and the
workspace registration are mutually exclusive: the pin is attempted only when
no workspace was discovered and registration only when one was, so at most
one of the two side effects ever occurs in one call. -/
theorem pin_and_registration_mutually_exclusive (env : Env) (req : InitRequest) (fs : FS) :
    ¬(pinWritten (init env req fs).2.trace = true ∧
      registrationWritten (init env req fs).2.trace = true) := by
  rintro ⟨hpin, hreg⟩
  unfold init at hpin hreg
  cases hd : env.discover with
  | ok ws =>
    rw [hd] at hpin
    rw [pinWritten_afterDiscover_some env req ws ⟨fs, []⟩ rfl] at hpin
    exact Bool.false_ne_true hpin
  | error e =>
    cases e with
    | missingPyprojectToml =>
      rw [hd] at hreg
      rw [registrationWritten_afterDiscover_none env req ⟨fs, []⟩ rfl] at hreg
      exact Bool.false_ne_true hreg
    | other msg =>
      rw [hd] at hpin
      exact Bool.false_ne_true hpin

/-- **C10 witness.** The exclusivity theorem applied at a concrete
invocation. -/
theorem pin_and_registration_mutually_exclusive_witness :
    ¬(pinWritten (init ⟨⟨true, ["home"]⟩, Except.error WorkspaceError.missingPyprojectToml,
        Except.ok "3.12.3"⟩
        ⟨some ⟨true, ["home", "foo"]⟩, none, false, false, none, false⟩ ⟨[]⟩).2.trace = true ∧
      registrationWritten (init ⟨⟨true, ["home"]⟩,
        Except.error WorkspaceError.missingPyprojectToml, Except.ok "3.12.3"⟩
        ⟨some ⟨true, ["home", "foo"]⟩, none, false, false, none, false⟩ ⟨[]⟩).2.trace = true) :=
  pin_and_registration_mutually_exclusive _ _ _

/-- **C2.** The interpreter pin file (`.python-version`) is written if and
only if `no_pin` is false and no enclosing workspace was discovered in
step 1 (reading the "only then" direction over completed successful calls:
an invocation failing at an earlier step writes nothing); it is never
written when a workspace is present, even with `no_pin` false; and when
written its content is the resolved interpreter's version string, placed at
the project root. -/
theorem interpreter_pin_write_iff (env : Env) (req : InitRequest) (fs : FS) :
    (∀ ws, env.discover = Except.ok ws → pinWritten (init env req fs).2.trace = false) ∧
    ((init env req fs).1 = InitResult.success →
      ((pinWritten (init env req fs).2.trace = true ↔
          (req.noPin = false ∧ env.discover = Except.error WorkspaceError.missingPyprojectToml)) ∧
        (pinWritten (init env req fs).2.trace = true →
          ∃ v, env.findOrFetch = Except.ok v ∧
            (init env req fs).2.fs.read ((resolvedProjectDir env req).join ".python-version") =
              some (FileContent.text v)))) := by
  constructor
  · intro ws hd
    rw [init_dispatch_ok env req fs ws hd]
    exact pinWritten_afterDiscover_some env req ws ⟨fs, []⟩ rfl
  · intro hs
    cases hd : env.discover with
    | error e =>
      cases e with
      | other msg =>
        rw [init_eq_of_discover_other env req fs msg hd] at hs
        exact absurd hs (by simp)
      | missingPyprojectToml =>
        cases hn : resolveName req (resolvedProjectDir env req) with
        | panicMissing =>
          rw [init_eq_of_name_panic env req fs none (by rw [hd]; rfl) hn] at hs
          exact absurd hs (by simp)
        | invalid s =>
          rw [init_eq_of_name_invalid env req fs none s (by rw [hd]; rfl) hn] at hs
          exact absurd hs (by simp)
        | ok n =>
          cases hex : fs.fileExists ((resolvedProjectDir env req).join "pyproject.toml") with
          | true =>
            rw [init_eq_of_manifest_exists env req fs none n (by rw [hd]; rfl) hn hex] at hs
            exact absurd hs (by simp)
          | false =>
            have hrun := init_eq_body env req fs none n (by rw [hd]; rfl) hn hex
            rw [initBody_eq] at hrun
            cases hnp : req.noPin with
            | true =>
              rw [pinAndRegister_none_noPin env req _ _ hnp] at hrun
              rw [hrun]
              constructor
              · simp [hnp]
              · simp
            | false =>
              cases hf : env.findOrFetch with
              | error msg =>
                rw [pinAndRegister_none_pin_err env req _ _ hnp msg hf] at hrun
                rw [hrun] at hs
                exact absurd hs (by simp)
              | ok v =>
                rw [pinAndRegister_none_pin_ok env req _ _ hnp v hf] at hrun
                rw [hrun]
                constructor
                · simp [hnp, hd]
                · intro hpw
                  exact ⟨v, rfl, by simp⟩
    | ok ws =>
      have hpw := pinWritten_afterDiscover_some env req ws ⟨fs, []⟩ rfl
      rw [← init_dispatch_ok env req fs ws hd] at hpw
      constructor
      · rw [hpw]
        simp [hd]
      · intro hcontr
        rw [hpw] at hcontr
        exact absurd hcontr (by simp)

/-- **C2 witness.** A concrete successful no-workspace run with `no_pin`
false: the pin is written with the resolved version. -/
theorem interpreter_pin_write_iff_witness :
    (init exEnvNoWs exReq ⟨[]⟩).1 = InitResult.success ∧
    (pinWritten (init exEnvNoWs exReq ⟨[]⟩).2.trace = true ↔
      (exReq.noPin = false ∧
        exEnvNoWs.discover = Except.error WorkspaceError.missingPyprojectToml)) :=
  ⟨by decide, ((interpreter_pin_write_iff exEnvNoWs exReq ⟨[]⟩).2 (by decide)).1⟩

/-- `addWorkspace` yields a member list containing the path exactly once,
whenever the incoming list contained it at most once. -/
theorem TomlDoc.count_addWorkspace (d : TomlDoc) (p : String) (h : d.members.count p ≤ 1) :
    (d.addWorkspace p).members.count p = 1 := by
  unfold TomlDoc.addWorkspace
  split
  · rename_i hm
    have h1 : 0 < d.members.count p := List.count_pos_iff.2 hm
    omega
  · rename_i hm
    have h0 : d.members.count p = 0 := List.count_eq_zero.2 hm
    simp [List.count_append, h0]

/-- **C3.** Workspace registration (rewriting the enclosing workspace's
manifest) occurs if and only if a workspace was discovered in step 1: with
no workspace discovered no manifest document is ever written back, and on a
successful call with a discovered (and parseable) workspace the enclosing
manifest is rewritten so that its member list contains the new project's
path exactly once — assuming the incoming member list, as in any well-formed
manifest, listed that path at most once. -/
theorem workspace_registration_iff (env : Env) (req : InitRequest) (fs : FS) :
    (env.discover = Except.error WorkspaceError.missingPyprojectToml →
      registrationWritten (init env req fs).2.trace = false) ∧
    (∀ ws doc, env.discover = Except.ok ws → ws.pyproject = Except.ok doc →
      doc.members.count (resolvedProjectDir env req).render ≤ 1 →
      (init env req fs).1 = InitResult.success →
      registrationWritten (init env req fs).2.trace = true ∧
      (init env req fs).2.fs.read (ws.root.join "pyproject.toml") =
        some (FileContent.toml (doc.addWorkspace (resolvedProjectDir env req).render)) ∧
      (doc.addWorkspace (resolvedProjectDir env req).render).members.count
        (resolvedProjectDir env req).render = 1) := by
  constructor
  · intro hd
    rw [init_dispatch_missing env req fs hd]
    exact registrationWritten_afterDiscover_none env req ⟨fs, []⟩ rfl
  · intro ws doc hd hp hcount hs
    cases hn : resolveName req (resolvedProjectDir env req) with
    | panicMissing =>
      rw [init_eq_of_name_panic env req fs (some ws) (by rw [hd]; rfl) hn] at hs
      exact absurd hs (by simp)
    | invalid s =>
      rw [init_eq_of_name_invalid env req fs (some ws) s (by rw [hd]; rfl) hn] at hs
      exact absurd hs (by simp)
    | ok n =>
      cases hex : fs.fileExists ((resolvedProjectDir env req).join "pyproject.toml") with
      | true =>
        rw [init_eq_of_manifest_exists env req fs (some ws) n (by rw [hd]; rfl) hn hex] at hs
        exact absurd hs (by simp)
      | false =>
        have hrun := init_eq_body env req fs (some ws) n (by rw [hd]; rfl) hn hex
        rw [initBody_eq, pinAndRegister_some_ok env req ws _ _ doc hp] at hrun
        rw [hrun]
        refine ⟨by simp [Effect.isRegistrationWrite], by simp, ?_⟩
        exact TomlDoc.count_addWorkspace doc _ hcount

/-- **C3 witness.** A concrete successful run inside a workspace: the
enclosing manifest is rewritten and lists the new project exactly once. -/
theorem workspace_registration_iff_witness :
    registrationWritten (init exEnvWs exReq ⟨[]⟩).2.trace = true ∧
    (init exEnvWs exReq ⟨[]⟩).2.fs.read (exWs.root.join "pyproject.toml") =
      some (FileContent.toml (TomlDoc.addWorkspace ⟨["old"], "doc"⟩ exDir.render)) ∧
    (TomlDoc.addWorkspace ⟨["old"], "doc"⟩ exDir.render).members.count exDir.render = 1 := by
  have h := (workspace_registration_iff exEnvWs exReq ⟨[]⟩).2 exWs ⟨["old"], "doc"⟩
    rfl rfl (by decide) (by decide)
  exact h

theorem mem_trace_createInitPy (n : String) (d : Path) (st : St) (e : Effect)
    (h : e ∈ st.trace) : e ∈ (createInitPy n d st).trace := by
  unfold createInitPy
  dsimp only
  split
  · exact h
  · simp only [St.trace_write]
    exact List.mem_append_left _ h

theorem mem_trace_createReadme (b : Bool) (d : Path) (st : St) (e : Effect)
    (h : e ∈ st.trace) : e ∈ (createReadme b d st).trace := by
  unfold createReadme
  split
  · exact h
  · dsimp only
    split
    · exact h
    · simp only [St.trace_write]
      exact List.mem_append_left _ h

/-- The manifest write of step 5 is in the trace after the skeleton steps. -/
theorem manifestWrite_mem_skeletonSt (req : InitRequest) (pd : Path) (n : String) (st : St) :
    Effect.write (pd.join "pyproject.toml") (FileContent.text (pyprojectTemplate n)) ∈
      (skeletonSt req pd n st).trace := by
  unfold skeletonSt
  apply mem_trace_createReadme
  apply mem_trace_createInitPy
  simp

/-- **C4.** For every project directory without an existing manifest, a
successful call writes a manifest whose text is the fixed template
interpolated from the resolved package name only — so it contains the
resolved name and version `"0.1.0"`, and no other request field (path,
flags, interpreter settings) affects the content, which is the function
`pyprojectTemplate` of the name alone. -/
theorem manifest_template_on_success (env : Env) (req : InitRequest) (fs : FS) (n : String)
    (hn : resolveName req (resolvedProjectDir env req) = NameOutcome.ok n)
    (hs : (init env req fs).1 = InitResult.success) :
    Effect.write ((resolvedProjectDir env req).join "pyproject.toml")
      (FileContent.text (pyprojectTemplate n)) ∈ (init env req fs).2.trace ∧
    pyprojectTemplate n =
      "[project]\nname = \"" ++
        (n ++
          "\"\nversion = \"0.1.0\"\ndescription = \"Add your description here\"\ndependencies = []\nreadme = \"README.md\"\n\n[tool.uv]\ndev-dependencies = []\n") := by
  refine ⟨?_, by simp [pyprojectTemplate, String.append_assoc]⟩
  cases hd : env.discover with
  | error e =>
    cases e with
    | other msg =>
      rw [init_eq_of_discover_other env req fs msg hd] at hs
      exact absurd hs (by simp)
    | missingPyprojectToml =>
      cases hex : fs.fileExists ((resolvedProjectDir env req).join "pyproject.toml") with
      | true =>
        rw [init_eq_of_manifest_exists env req fs none n (by rw [hd]; rfl) hn hex] at hs
        exact absurd hs (by simp)
      | false =>
        have hrun := init_eq_body env req fs none n (by rw [hd]; rfl) hn hex
        rw [initBody_eq] at hrun
        cases hnp : req.noPin with
        | true =>
          rw [pinAndRegister_none_noPin env req _ _ hnp] at hrun
          rw [hrun]
          exact manifestWrite_mem_skeletonSt req _ n ⟨fs, []⟩
        | false =>
          cases hf : env.findOrFetch with
          | error msg =>
            rw [pinAndRegister_none_pin_err env req _ _ hnp msg hf] at hrun
            rw [hrun] at hs
            exact absurd hs (by simp)
          | ok v =>
            rw [pinAndRegister_none_pin_ok env req _ _ hnp v hf] at hrun
            rw [hrun]
            simp only [St.trace_write]
            exact List.mem_append_left _ (manifestWrite_mem_skeletonSt req _ n ⟨fs, []⟩)
  | ok ws =>
    cases hex : fs.fileExists ((resolvedProjectDir env req).join "pyproject.toml") with
    | true =>
      rw [init_eq_of_manifest_exists env req fs (some ws) n (by rw [hd]; rfl) hn hex] at hs
      exact absurd hs (by simp)
    | false =>
      have hrun := init_eq_body env req fs (some ws) n (by rw [hd]; rfl) hn hex
      rw [initBody_eq] at hrun
      cases hp : ws.pyproject with
      | error msg =>
        rw [pinAndRegister_some_err env req ws _ _ msg hp] at hrun
        rw [hrun] at hs
        exact absurd hs (by simp)
      | ok doc =>
        rw [pinAndRegister_some_ok env req ws _ _ doc hp] at hrun
        rw [hrun]
        simp only [St.trace_write]
        exact List.mem_append_left _ (manifestWrite_mem_skeletonSt req _ n ⟨fs, []⟩)

/-- **C4 witness.** The concrete run writes the template manifest for
`foo`. -/
theorem manifest_template_on_success_witness :
    Effect.write (exDir.join "pyproject.toml")
      (FileContent.text (pyprojectTemplate "foo")) ∈ (init exEnvNoWs exReq ⟨[]⟩).2.trace :=
  (manifest_template_on_success exEnvNoWs exReq ⟨[]⟩ "foo" (by decide) (by decide)).1

/-- Steps 8–9 never produce one of the pre-mutation failure modes. -/
theorem isPreMutationFailure_pinAndRegister (env : Env) (req : InitRequest)
    (ws? : Option Workspace) (pd : Path) (st : St) :
    isPreMutationFailure (pinAndRegister env req ws? pd st).1 = false := by
  unfold pinAndRegister registerWorkspace
  dsimp only
  split
  · split
    · rfl
    · split
      · rfl
      · split
        · rfl
        · rfl
  · split
    · rfl
    · split
      · rfl
      · rfl

/-- **C6.** If the target directory already contains a manifest, the call
fails and no filesystem state is modified; more generally every failure at
or before the step-4 precondition check (fatal discovery error, name panic,
invalid name, `AlreadyInitialized`) leaves the filesystem exactly as it was,
with an empty effect trace — the manifest-existence check is the last stop
before mutation begins. -/
theorem already_initialized_atomicity (env : Env) (req : InitRequest) (fs : FS) :
    (fs.fileExists ((resolvedProjectDir env req).join "pyproject.toml") = true →
      (init env req fs).1 ≠ InitResult.success ∧ (init env req fs).2 = ⟨fs, []⟩) ∧
    (isPreMutationFailure (init env req fs).1 = true → (init env req fs).2 = ⟨fs, []⟩) := by
  cases hd : env.discover with
  | error e =>
    cases e with
    | other msg =>
      rw [init_eq_of_discover_other env req fs msg hd]
      exact ⟨fun _ => ⟨by simp, rfl⟩, fun _ => rfl⟩
    | missingPyprojectToml =>
      cases hn : resolveName req (resolvedProjectDir env req) with
      | panicMissing =>
        rw [init_eq_of_name_panic env req fs none (by rw [hd]; rfl) hn]
        exact ⟨fun _ => ⟨by simp, rfl⟩, fun _ => rfl⟩
      | invalid s =>
        rw [init_eq_of_name_invalid env req fs none s (by rw [hd]; rfl) hn]
        exact ⟨fun _ => ⟨by simp, rfl⟩, fun _ => rfl⟩
      | ok n =>
        cases hex : fs.fileExists ((resolvedProjectDir env req).join "pyproject.toml") with
        | true =>
          rw [init_eq_of_manifest_exists env req fs none n (by rw [hd]; rfl) hn hex]
          exact ⟨fun _ => ⟨by simp, rfl⟩, fun _ => rfl⟩
        | false =>
          rw [init_eq_body env req fs none n (by rw [hd]; rfl) hn hex, initBody_eq]
          refine ⟨fun hcontr => absurd hcontr (by simp), fun hcontr => ?_⟩
          rw [isPreMutationFailure_pinAndRegister] at hcontr
          exact absurd hcontr (by simp)
  | ok ws =>
    cases hn : resolveName req (resolvedProjectDir env req) with
    | panicMissing =>
      rw [init_eq_of_name_panic env req fs (some ws) (by rw [hd]; rfl) hn]
      exact ⟨fun _ => ⟨by simp, rfl⟩, fun _ => rfl⟩
    | invalid s =>
      rw [init_eq_of_name_invalid env req fs (some ws) s (by rw [hd]; rfl) hn]
      exact ⟨fun _ => ⟨by simp, rfl⟩, fun _ => rfl⟩
    | ok n =>
      cases hex : fs.fileExists ((resolvedProjectDir env req).join "pyproject.toml") with
      | true =>
        rw [init_eq_of_manifest_exists env req fs (some ws) n (by rw [hd]; rfl) hn hex]
        exact ⟨fun _ => ⟨by simp, rfl⟩, fun _ => rfl⟩
      | false =>
        rw [init_eq_body env req fs (some ws) n (by rw [hd]; rfl) hn hex, initBody_eq]
        refine ⟨fun hcontr => absurd hcontr (by simp), fun hcontr => ?_⟩
        rw [isPreMutationFailure_pinAndRegister] at hcontr
        exact absurd hcontr (by simp)

/-- **C6 witness.** A directory already holding a manifest: the call fails
and the filesystem is untouched. -/
theorem already_initialized_atomicity_witness :
    (⟨[(exDir.join "pyproject.toml", FileContent.text "old")]⟩ : FS).fileExists
        ((resolvedProjectDir exEnvNoWs exReq).join "pyproject.toml") = true ∧
    (init exEnvNoWs exReq ⟨[(exDir.join "pyproject.toml", FileContent.text "old")]⟩).1 ≠
        InitResult.success ∧
    (init exEnvNoWs exReq ⟨[(exDir.join "pyproject.toml", FileContent.text "old")]⟩).2 =
        ⟨⟨[(exDir.join "pyproject.toml", FileContent.text "old")]⟩, []⟩ := by
  have h := ((already_initialized_atomicity exEnvNoWs exReq
    ⟨[(exDir.join "pyproject.toml", FileContent.text "old")]⟩).1 (by decide))
  exact ⟨by decide, h.1, h.2⟩

/-- **C7.** The module-file and README creation steps are idempotent with
respect to existing content: each file is created only when absent, any
pre-existing content (user modifications included) is left untouched — the
step is then a no-op on the whole state — and with `no_readme` set the
README step touches nothing at all. -/
theorem creation_steps_idempotent (n : String) (d pd : Path) (st : St) :
    (∀ c, st.fs.read (d.join "__init__.py") = some c → createInitPy n d st = st) ∧
    (st.fs.fileExists (d.join "__init__.py") = false →
      (createInitPy n d st).fs.read (d.join "__init__.py") =
        some (FileContent.text (initPyTemplate n))) ∧
    (∀ c, st.fs.read (pd.join "README.md") = some c → createReadme false pd st = st) ∧
    (createReadme true pd st = st) ∧
    (st.fs.fileExists (pd.join "README.md") = false →
      (createReadme false pd st).fs.read (pd.join "README.md") =
        some (FileContent.text "")) := by
  refine ⟨?_, ?_, ?_, rfl, ?_⟩
  · intro c hc
    unfold createInitPy
    dsimp only
    rw [if_pos]
    simp [FS.fileExists, hc]
  · intro h
    unfold createInitPy
    dsimp only
    rw [if_neg]
    · simp
    · simp [h]
  · intro c hc
    unfold createReadme
    rw [if_neg (by simp)]
    dsimp only
    rw [if_pos]
    simp [FS.fileExists, hc]
  · intro h
    unfold createReadme
    rw [if_neg (by simp)]
    dsimp only
    rw [if_neg]
    · simp
    · simp [h]

/-- **C7 witness.** With user-modified content present, both creation steps
are no-ops on a concrete state. -/
theorem creation_steps_idempotent_witness :
    createInitPy "foo" exDir
        ⟨⟨[(exDir.join "__init__.py", FileContent.text "user code")]⟩, []⟩ =
      ⟨⟨[(exDir.join "__init__.py", FileContent.text "user code")]⟩, []⟩ ∧
    createReadme false exDir
        ⟨⟨[(exDir.join "README.md", FileContent.text "my notes")]⟩, []⟩ =
      ⟨⟨[(exDir.join "README.md", FileContent.text "my notes")]⟩, []⟩ := by
  constructor
  · exact (creation_steps_idempotent "foo" exDir exDir
      ⟨⟨[(exDir.join "__init__.py", FileContent.text "user code")]⟩, []⟩).1
      (FileContent.text "user code") (by decide)
  · exact (creation_steps_idempotent "foo" exDir exDir
      ⟨⟨[(exDir.join "README.md", FileContent.text "my notes")]⟩, []⟩).2.2.1
      (FileContent.text "my notes") (by decide)

theorem createInitPy_fileExists_self (n : String) (d : Path) (st : St) :
    (createInitPy n d st).fs.fileExists (d.join "__init__.py") = true := by
  unfold createInitPy
  dsimp only
  split
  · assumption
  · simp

theorem createReadme_fileExists_other (b : Bool) (d : Path) (st : St) (q : Path)
    (h : q ≠ d.join "README.md") :
    (createReadme b d st).fs.fileExists q = st.fs.fileExists q := by
  simp [FS.fileExists, createReadme_fs_read_other b d st q h]

theorem createReadme_false_fileExists_self (d : Path) (st : St) :
    (createReadme false d st).fs.fileExists (d.join "README.md") = true := by
  unfold createReadme
  rw [if_neg (by simp)]
  dsimp only
  split
  · assumption
  · simp

/-- After the skeleton steps the module file exists. -/
theorem skeletonSt_initPy_exists (req : InitRequest) (pd : Path) (n : String) (st : St) :
    (skeletonSt req pd n st).fs.fileExists (((pd.join "src").join n).join "__init__.py") =
      true := by
  unfold skeletonSt
  rw [createReadme_fileExists_other]
  · exact createInitPy_fileExists_self n _ _
  · exact Path.join_ne_of_comp_ne _ _ _ _ (by decide)

/-- After the skeleton steps the README exists unless suppressed. -/
theorem skeletonSt_readme_exists (pd : Path) (n : String) (st : St) (req : InitRequest)
    (h : req.noReadme = false) :
    (skeletonSt req pd n st).fs.fileExists (pd.join "README.md") = true := by
  unfold skeletonSt
  rw [h]
  exact createReadme_false_fileExists_self pd _

/-- The `create_dir_all` for the source directory is in the skeleton trace. -/
theorem srcDir_mem_skeletonSt (req : InitRequest) (pd : Path) (n : String) (st : St) :
    Effect.createDirAll ((pd.join "src").join n) ∈ (skeletonSt req pd n st).trace := by
  unfold skeletonSt
  apply mem_trace_createReadme
  apply mem_trace_createInitPy
  simp

/-- **C8.** If the workspace-registration step fails because the enclosing
manifest does not parse, the error is fatal and propagated
(`ManifestEditError`), but the new package's own skeleton created in steps
5–7 — source directory, manifest with the template, module file, README —
remains on disk unchanged: no rollback is performed. -/
theorem registration_failure_keeps_skeleton (env : Env) (req : InitRequest) (fs : FS)
    (ws : Workspace) (n : String) (msg : String)
    (hd : env.discover = Except.ok ws)
    (hn : resolveName req (resolvedProjectDir env req) = NameOutcome.ok n)
    (hex : fs.fileExists ((resolvedProjectDir env req).join "pyproject.toml") = false)
    (hp : ws.pyproject = Except.error msg) :
    (init env req fs).1 = InitResult.error (InitError.manifestEdit msg) ∧
    Effect.createDirAll (((resolvedProjectDir env req).join "src").join n) ∈
      (init env req fs).2.trace ∧
    (init env req fs).2.fs.read ((resolvedProjectDir env req).join "pyproject.toml") =
      some (FileContent.text (pyprojectTemplate n)) ∧
    (init env req fs).2.fs.fileExists
      ((((resolvedProjectDir env req).join "src").join n).join "__init__.py") = true ∧
    (req.noReadme = false →
      (init env req fs).2.fs.fileExists ((resolvedProjectDir env req).join "README.md") =
        true) := by
  have hrun := init_eq_body env req fs (some ws) n (by rw [hd]; rfl) hn hex
  rw [initBody_eq, pinAndRegister_some_err env req ws _ _ msg hp] at hrun
  rw [hrun]
  exact ⟨rfl, srcDir_mem_skeletonSt req _ n ⟨fs, []⟩,
    skeletonSt_read_manifest req _ n ⟨fs, []⟩,
    skeletonSt_initPy_exists req _ n ⟨fs, []⟩,
    fun h => skeletonSt_readme_exists _ n ⟨fs, []⟩ req h⟩

/-- A workspace whose manifest the editor cannot parse. -/
def exWsBad : Workspace := ⟨⟨true, ["ws"]⟩, Except.error "bad toml"⟩

/-- Discovery finds the unparseable workspace. -/
def exEnvWsBad : Env := ⟨exCwd, Except.ok exWsBad, Except.ok "3.12.3"⟩

/-- **C8 witness.** A concrete failing registration: the error is
`ManifestEditError` and the skeleton is on disk. -/
theorem registration_failure_keeps_skeleton_witness :
    (init exEnvWsBad exReq ⟨[]⟩).1 = InitResult.error (InitError.manifestEdit "bad toml") ∧
    (init exEnvWsBad exReq ⟨[]⟩).2.fs.read (exDir.join "pyproject.toml") =
      some (FileContent.text (pyprojectTemplate "foo")) := by
  have h := registration_failure_keeps_skeleton exEnvWsBad exReq ⟨[]⟩ exWsBad "foo"
    "bad toml" rfl (by decide) (by decide) rfl
  exact ⟨h.1, h.2.2.1⟩

/-- An environment whose workspace discovery fails fatally. -/
def exEnvBadDisc : Env :=
  ⟨exCwd, Except.error (WorkspaceError.other "discovery failed"), Except.ok "3.12.3"⟩

/-- **C1 counterexample.** A manifest exists in the project directory, yet
the call does not fail with `AlreadyInitialized`: a fatal workspace-discovery
error preempts the precondition check. -/
theorem already_initialized_iff_counterexample :
    (⟨[(exDir.join "pyproject.toml", FileContent.text "old")]⟩ : FS).fileExists
        ((resolvedProjectDir exEnvBadDisc exReq).join "pyproject.toml") = true ∧
    (init exEnvBadDisc exReq ⟨[(exDir.join "pyproject.toml", FileContent.text "old")]⟩).1 =
        InitResult.error (InitError.workspaceDiscovery "discovery failed") ∧
    (init exEnvBadDisc exReq ⟨[(exDir.join "pyproject.toml", FileContent.text "old")]⟩).1 ≠
        InitResult.error InitError.alreadyInitialized := by
  decide

/-- **C1 (amended).** The call fails with `AlreadyInitialized` if and only
if a manifest exists directly in the resolved project directory before the
call *and* the earlier steps did not fail first — workspace discovery did
not error fatally and name resolution produced a name.  (The original claim
omitted the second condition: an earlier failure preempts the check.) -/
theorem already_initialized_iff (env : Env) (req : InitRequest) (fs : FS) :
    (init env req fs).1 = InitResult.error InitError.alreadyInitialized ↔
      ((∃ ws?, discovered env.discover = some ws?) ∧
       (∃ n, resolveName req (resolvedProjectDir env req) = NameOutcome.ok n) ∧
       fs.fileExists ((resolvedProjectDir env req).join "pyproject.toml") = true) := by
  constructor
  · intro h
    cases hd : env.discover with
    | error e =>
      cases e with
      | other msg =>
        rw [init_eq_of_discover_other env req fs msg hd] at h
        exact absurd h (by simp)
      | missingPyprojectToml =>
        cases hn : resolveName req (resolvedProjectDir env req) with
        | panicMissing =>
          rw [init_eq_of_name_panic env req fs none (by rw [hd]; rfl) hn] at h
          exact absurd h (by simp)
        | invalid s =>
          rw [init_eq_of_name_invalid env req fs none s (by rw [hd]; rfl) hn] at h
          exact absurd h (by simp)
        | ok n =>
          cases hex : fs.fileExists ((resolvedProjectDir env req).join "pyproject.toml") with
          | true => exact ⟨⟨none, rfl⟩, ⟨n, rfl⟩, rfl⟩
          | false =>
            rw [init_eq_body env req fs none n (by rw [hd]; rfl) hn hex, initBody_eq] at h
            have hpre := isPreMutationFailure_pinAndRegister env req none
              (resolvedProjectDir env req) (skeletonSt req (resolvedProjectDir env req) n ⟨fs, []⟩)
            rw [h] at hpre
            simp [isPreMutationFailure] at hpre
    | ok ws =>
      cases hn : resolveName req (resolvedProjectDir env req) with
      | panicMissing =>
        rw [init_eq_of_name_panic env req fs (some ws) (by rw [hd]; rfl) hn] at h
        exact absurd h (by simp)
      | invalid s =>
        rw [init_eq_of_name_invalid env req fs (some ws) s (by rw [hd]; rfl) hn] at h
        exact absurd h (by simp)
      | ok n =>
        cases hex : fs.fileExists ((resolvedProjectDir env req).join "pyproject.toml") with
        | true => exact ⟨⟨some ws, rfl⟩, ⟨n, rfl⟩, rfl⟩
        | false =>
          rw [init_eq_body env req fs (some ws) n (by rw [hd]; rfl) hn hex, initBody_eq] at h
          have hpre := isPreMutationFailure_pinAndRegister env req (some ws)
            (resolvedProjectDir env req) (skeletonSt req (resolvedProjectDir env req) n ⟨fs, []⟩)
          rw [h] at hpre
          simp [isPreMutationFailure] at hpre
  · rintro ⟨⟨ws?, hws⟩, ⟨n, hn⟩, hex⟩
    rw [init_eq_of_manifest_exists env req fs ws? n hws hn hex]

/-- **C1 witness.** When discovery and name resolution succeed and a
manifest is present, the call does fail with `AlreadyInitialized`. -/
theorem already_initialized_iff_witness :
    (init exEnvNoWs exReq ⟨[(exDir.join "pyproject.toml", FileContent.text "old")]⟩).1 =
      InitResult.error InitError.alreadyInitialized :=
  (already_initialized_iff exEnvNoWs exReq _).2
    ⟨⟨none, rfl⟩, ⟨"foo", by decide⟩, by decide⟩

/-- The call returned an `InvalidName` error (as opposed to panicking). -/
def InitResult.isInvalidName : InitResult → Bool
  | InitResult.error (InitError.invalidName _) => true
  | _ => false

/-- A request targeting the filesystem root, with no explicit name. -/
def exReqRoot : InitRequest := ⟨some ⟨true, []⟩, none, false, false, none, false⟩

/-- **C5 counterexample.** At the filesystem root the final path component
is unavailable, and the call does not fail with an `InvalidName` error — it
panics (`.expect("Invalid package name")` aborts the process). -/
theorem invalid_name_counterexample :
    (resolvedProjectDir exEnvNoWs exReqRoot).fileName = none ∧
    (init exEnvNoWs exReqRoot ⟨[]⟩).1 = InitResult.panic "Invalid package name" ∧
    (init exEnvNoWs exReqRoot ⟨[]⟩).1.isInvalidName = false := by
  decide

/-- **C5 (amended).** When no package name is supplied it is derived from
the final path component of the project directory; if that component is
empty or unavailable (e.g. filesystem root) the call *panics* rather than
returning an error, and if it is present but not a valid package identifier
the call fails with `InvalidName`; when a name is supplied the path segment
is ignored.  (Assuming workspace discovery succeeded, which runs first.) -/
theorem invalid_name_behavior (env : Env) (req : InitRequest) (fs : FS)
    (ws? : Option Workspace) (hws : discovered env.discover = some ws?) :
    (req.name = none → (resolvedProjectDir env req).fileName = none →
      (init env req fs).1 = InitResult.panic "Invalid package name") ∧
    (∀ s, req.name = none → (resolvedProjectDir env req).fileName = some s →
      isValidPackageName s = false →
      (init env req fs).1 = InitResult.error (InitError.invalidName s)) ∧
    (∀ n pd, req.name = some n → resolveName req pd = NameOutcome.ok n) := by
  refine ⟨?_, ?_, ?_⟩
  · intro h1 h2
    have hn : resolveName req (resolvedProjectDir env req) = NameOutcome.panicMissing := by
      unfold resolveName
      rw [h1, h2]
    rw [init_eq_of_name_panic env req fs ws? hws hn]
  · intro s h1 h2 h3
    have hn : resolveName req (resolvedProjectDir env req) = NameOutcome.invalid s := by
      unfold resolveName
      rw [h1, h2]
      simp [h3]
    rw [init_eq_of_name_invalid env req fs ws? s hws hn]
  · intro n pd h1
    unfold resolveName
    rw [h1]

/-- A request whose directory name is not a valid package identifier. -/
def exReqBadName : InitRequest := ⟨some ⟨true, ["bad name!"]⟩, none, false, false, none, false⟩

/-- **C5 witness.** A present but invalid final component yields
`InvalidName`. -/
theorem invalid_name_behavior_witness :
    (init exEnvNoWs exReqBadName ⟨[]⟩).1 =
      InitResult.error (InitError.invalidName "bad name!") :=
  (invalid_name_behavior exEnvNoWs exReqBadName ⟨[]⟩ none rfl).2.1
    "bad name!" rfl (by decide) (by decide)

/-- A request giving a relative target path. -/
def exReqRel : InitRequest := ⟨some ⟨false, ["foo"]⟩, none, false, false, none, false⟩

/-- **C9 counterexample.** With a relative `target_path` the resolved
project location is that path verbatim — neither absolute nor
canonicalized. -/
theorem project_location_counterexample :
    resolvedProjectDir exEnvNoWs exReqRel = ⟨false, ["foo"]⟩ ∧
    (resolvedProjectDir exEnvNoWs exReqRel).absolute = false ∧
    (resolvedProjectDir exEnvNoWs exReqRel).isCanonical = false := by
  decide

/-- **C9 (amended).** The project location is computed once, by
`resolvedProjectDir` (all later steps use this same value): when
`target_path` is given it is that path verbatim — not necessarily absolute
or canonicalized — and otherwise it is the canonicalised current working
directory, which is canonical. -/
theorem project_location_amended (env : Env) (req : InitRequest)
    (h : env.currentDir.isCanonical = true) :
    (∀ p, req.path = some p → resolvedProjectDir env req = p) ∧
    (req.path = none →
      resolvedProjectDir env req = env.currentDir ∧
      (resolvedProjectDir env req).isCanonical = true) := by
  constructor
  · intro p hp
    unfold resolvedProjectDir
    rw [hp]
  · intro hp
    unfold resolvedProjectDir
    rw [hp]
    exact ⟨rfl, h⟩

/-- **C9 witness.** The explicit target path is used verbatim. -/
theorem project_location_amended_witness :
    resolvedProjectDir exEnvNoWs exReq = exDir :=
  (project_location_amended exEnvNoWs exReq (by decide)).1 exDir rfl

end UvInit
